import Mathlib

/-!
# Verification of the evdev activity/idleness monitor (idlewatcher)

Shallow embedding of the core of `idlewatcher.cpp`: the ACTIVE/IDLE/EXTENDED
state machine (`enter`, `on_activity`, `reevaluate`, `schedule_timer`), the
activity classifier of `handle_input` (per-event dead-zone and batch-pulse
logic), per-axis calibration (`init_abs_info`), configuration value handling
(`parse_pos_int` inside `read_config_or_defaults`) and the device registry
(`add_dev`).

Time is modelled as `Int` milliseconds of the monotonic clock; observable side
effects (state-file writes, hook dispatch, timer arming) are returned as an
explicit effect list.
-/

namespace Idlewatcher

/-- `enum class State{ACTIVE,IDLE,EXTENDED};` -/
inductive State where
  | ACTIVE
  | IDLE
  | EXTENDED
deriving DecidableEq, Repr

/-- Observable side effects of the state machine: a write of `0`/`1` to the
state file, a hook-directory dispatch with its argument, and arming the
timerfd for a number of milliseconds (`0` disarms). -/
inductive Effect where
  | writeState (v : Int)
  | runHooks (subdir : String) (arg : String)
  | armTimer (ms : Int)
deriving DecidableEq, Repr

/-- The state-machine part of the global `Runtime RT`: clock marks, current
state and the two configured timeouts (in seconds). -/
structure Runtime where
  last_activity_ms : Int
  last_pulse_ms : Int
  state : State
  idle_s : Int
  extended_s : Int
deriving DecidableEq, Repr

/-- `DEBOUNCE_MS = 3000`. -/
def DEBOUNCE_MS : Int := 3000

/-- Value written to the state file: `(s==State::ACTIVE)?1:0`. -/
def state_val (s : State) : Int := if s = State.ACTIVE then 1 else 0

/-- Hook subdirectory chosen by `enter`. -/
def hook_subdir : State → String
  | State.ACTIVE => "active.d"
  | State.IDLE => "idle.d"
  | State.EXTENDED => "extended.d"

/-- Hook argument chosen by `enter`. -/
def hook_arg : State → String
  | State.ACTIVE => "active"
  | State.IDLE => "idle"
  | State.EXTENDED => "extended"

/-- `enter(State to)`: no-op when `to == RT.state`; otherwise set the state,
write the state file and run the matching hook directories. -/
def enter (rt : Runtime) (s : State) : Runtime × List Effect :=
  if s = rt.state then (rt, [])
  else ({ rt with state := s },
        [Effect.writeState (state_val s), Effect.runHooks (hook_subdir s) (hook_arg s)])

/-- `effective_idle_ms()`: `delta > 0 ? delta : 0` with
`delta = now - RT.last_activity_ms`. -/
def effective_idle_ms (rt : Runtime) (now : Int) : Int :=
  let delta := now - rt.last_activity_ms
  if delta > 0 then delta else 0

/-- `schedule_timer()`: one timer arming derived from the current state and
elapsed idle time. -/
def schedule_timer (rt : Runtime) (now : Int) : List Effect :=
  let idle_ms := rt.idle_s * 1000
  let ext_ms := rt.extended_s * 1000
  if rt.state = State.EXTENDED then [Effect.armTimer 0]
  else
    let eff_since := effective_idle_ms rt now
    if rt.state = State.ACTIVE then
      let remain := idle_ms - eff_since
      [Effect.armTimer (if remain > 1 then remain else 1)]
    else if rt.state = State.IDLE then
      let remain := idle_ms + ext_ms - eff_since
      [Effect.armTimer (if remain > 1 then remain else 1)]
    else
      [Effect.armTimer 0]

/-- `on_activity()`: global debounce, then record the pulse, enter ACTIVE when
not already there, and reschedule the timer. -/
def on_activity (rt : Runtime) (now : Int) : Runtime × List Effect :=
  if now - rt.last_pulse_ms < DEBOUNCE_MS then (rt, [])
  else
    let rt1 : Runtime := { rt with last_pulse_ms := now, last_activity_ms := now }
    let step := if rt1.state ≠ State.ACTIVE then enter rt1 State.ACTIVE else (rt1, [])
    (step.1, step.2 ++ schedule_timer step.1 now)

/-- `reevaluate()`: walk the transition rules from the freshly computed
elapsed idle time, then reschedule. -/
def reevaluate (rt : Runtime) (now : Int) : Runtime × List Effect :=
  let eff_since := effective_idle_ms rt now
  let idle_ms := rt.idle_s * 1000
  let ext_ms := rt.extended_s * 1000
  let step :=
    if rt.state = State.ACTIVE then
      if eff_since ≥ idle_ms then enter rt State.IDLE else (rt, [])
    else if rt.state = State.IDLE then
      if eff_since < idle_ms then enter rt State.ACTIVE
      else if eff_since ≥ idle_ms + ext_ms then enter rt State.EXTENDED
      else (rt, [])
    else
      if eff_since < idle_ms then enter rt State.ACTIVE else (rt, [])
  (step.1, step.2 ++ schedule_timer step.1 now)

/-- The runtime as `main` sets it up before the event loop: state ACTIVE,
`last_activity_ms = now_ms()`, `last_pulse_ms` zero-initialised, timeouts
from config. -/
def init_rt (t0 idle ext : Int) : Runtime :=
  { last_activity_ms := t0, last_pulse_ms := 0, state := State.ACTIVE,
    idle_s := idle, extended_s := ext }

/-- Reachable runtime states, paired with the time of the last processed
event.  The monotonic clock never decreases, `now_ms()` is nonnegative, and
`read_config_or_defaults` enforces both timeouts to be at least 60 s. -/
inductive Reach : Runtime → Int → Prop where
  | init (t0 idle ext : Int) (h0 : 0 ≤ t0) (hi : 60 ≤ idle) (he : 60 ≤ ext) :
      Reach (init_rt t0 idle ext) t0
  | activity {rt : Runtime} {t : Int} (t' : Int) (h : Reach rt t) (hle : t ≤ t') :
      Reach (on_activity rt t').1 t'
  | timer {rt : Runtime} {t : Int} (t' : Int) (h : Reach rt t) (hle : t ≤ t') :
      Reach (reevaluate rt t').1 t'

/-- The inductive invariant of the reachable runtimes: timeouts stay at their
configured (≥ 60 s) values, the pulse mark never runs ahead of the activity
mark, the activity mark never runs ahead of the clock, and away from ACTIVE a
full idle timeout has already elapsed since the last activity. -/
def Inv (rt : Runtime) (t : Int) : Prop :=
  60 ≤ rt.idle_s ∧ 60 ≤ rt.extended_s ∧
  rt.last_pulse_ms ≤ rt.last_activity_ms ∧
  rt.last_activity_ms ≤ t ∧
  (rt.state ≠ State.ACTIVE → rt.idle_s * 1000 ≤ t - rt.last_activity_ms)

/-- `AXIS_DZ_MIN = 64`: the small floor for computed dead-zones, also the
fallback used by `handle_input` when a stored width is non-positive. -/
def AXIS_DZ_MIN : Int := 64

/-- `AXIS_DZ_BADSPAN = 128`: fallback width for a non-positive reported span. -/
def AXIS_DZ_BADSPAN : Int := 128

/-- `ABS_MAX = 0x3f`. -/
def ABS_MAX : Nat := 63

/-- `is_hat_abs`: `code >= ABS_HAT0X && code <= ABS_HAT3Y`
(`ABS_HAT0X = 0x10`, `ABS_HAT3Y = 0x17`). -/
def is_hat_abs (code : Nat) : Bool := decide (16 ≤ code ∧ code ≤ 23)

/-- The view of a raw `input_event` that `handle_input` consumes: sync, key,
relative motion, absolute axis (with its code and raw value), or any other
event type. -/
inductive Ev where
  | syn
  | key
  | rel
  | abs (code : Nat) (val : Int)
  | other
deriving DecidableEq, Repr

/-- The per-device classifier state of `struct Dev` used by `handle_input`:
per-axis last-seen value, seen flag, and stored dead-zone width. -/
structure ClassDev where
  abs_last : Nat → Int
  abs_seen : Nat → Bool
  abs_dz : Nat → Int

/-- One iteration of the per-event loop of `handle_input`: consume one event
given the batch's `pulsed` flag, returning the updated device and flag.
`on_activity()` is invoked exactly when the returned flag is `true` while the
incoming one was `false`. -/
def handle_event (dv : ClassDev) (pulsed : Bool) (e : Ev) : ClassDev × Bool :=
  if pulsed then (dv, true)
  else
    match e with
    | Ev.syn => (dv, false)
    | Ev.key => (dv, true)
    | Ev.rel => (dv, true)
    | Ev.abs code val =>
      if dv.abs_seen code = false then
        ({ dv with abs_last := Function.update dv.abs_last code val,
                   abs_seen := Function.update dv.abs_seen code true }, false)
      else
        let delta : Nat := (val - dv.abs_last code).natAbs
        if is_hat_abs code then
          if delta ≠ 0 then
            ({ dv with abs_last := Function.update dv.abs_last code val }, true)
          else (dv, false)
        else
          let dz := if dv.abs_dz code ≤ 0 then AXIS_DZ_MIN else dv.abs_dz code
          if dz ≤ (delta : Int) then
            ({ dv with abs_last := Function.update dv.abs_last code val }, true)
          else (dv, false)
    | Ev.other => (dv, false)

/-- The whole per-event loop of `handle_input` over one read batch. -/
def run_batch (dv : ClassDev) (pulsed : Bool) : List Ev → ClassDev × Bool
  | [] => (dv, pulsed)
  | e :: rest =>
    let r := handle_event dv pulsed e
    run_batch r.1 r.2 rest

/-- Number of `on_activity()` invocations made while consuming a batch. -/
def pulse_count (dv : ClassDev) (pulsed : Bool) : List Ev → Nat
  | [] => 0
  | e :: rest =>
    let r := handle_event dv pulsed e
    (if pulsed = false ∧ r.2 = true then 1 else 0) + pulse_count r.1 r.2 rest

/-- The qualification test `handle_input` applies to an already-seen absolute
axis: hat axes on any nonzero delta; other axes when the delta reaches the
stored dead-zone width (64 substituted for a non-positive stored width). -/
def abs_qualifies (dv : ClassDev) (code : Nat) (val : Int) : Bool :=
  let delta : Nat := (val - dv.abs_last code).natAbs
  if is_hat_abs code then decide (delta ≠ 0)
  else decide ((if dv.abs_dz code ≤ 0 then AXIS_DZ_MIN else dv.abs_dz code) ≤ (delta : Int))

/-- A concrete classifier device for witnesses and counterexamples: every
axis already seen with last value 0 and dead-zone width 64. -/
def cdev : ClassDev :=
  { abs_last := fun _ => 0, abs_seen := fun _ => true, abs_dz := fun _ => 64 }

/-- The fields of `input_absinfo` that `init_abs_info` reads. -/
structure AbsInfo where
  minimum : Int
  maximum : Int
deriving DecidableEq, Repr

/-- Per-axis body of the `init_abs_info` loop: the dead-zone width stored in
`abs_dz[code]`, given the outcome of the `EVIOCGABS` probe for that code
(`none` when the ioctl fails, in which case the cleared value 0 is kept).
The dead-zone fraction `AXIS_DZ_PCT` is modelled as a rational, and
`std::lround` on the nonnegative product as `round`. -/
def init_abs_dz (pct : ℚ) (probe : Nat → Option AbsInfo) (code : Nat) : Int :=
  if code ≤ ABS_MAX then
    match probe code with
    | none => 0
    | some ai =>
      if is_hat_abs code then 0
      else
        let span := ai.maximum - ai.minimum
        if span > 0 then
          let dz := round ((span : ℚ) * pct)
          if dz < AXIS_DZ_MIN then AXIS_DZ_MIN else dz
        else AXIS_DZ_BADSPAN
  else 0

/-- `DEFAULT_IDLE_S = 900`. -/
def DEFAULT_IDLE_S : Int := 900

/-- `DEFAULT_EXTENDED_S = 3600`. -/
def DEFAULT_EXTENDED_S : Int := 3600

/-- `parse_pos_int` on the numeric value of the field (as `strtol` yields
it): rejected with −1 when negative or above `12*60*60` seconds. -/
def parse_pos_int (v : Int) : Int :=
  if v < 0 ∨ v > 12*60*60 then -1 else v

/-- The `idle=` key handling of `read_config_or_defaults` followed by its
final minimum enforcement: starting from the default, a parsed value `n ≥ 60`
replaces it; afterwards any value below 60 is raised to 60. -/
def config_idle (v : Int) : Int :=
  let idle_s := DEFAULT_IDLE_S
  let n := parse_pos_int v
  let idle_s := if n ≥ 60 then n else idle_s
  if idle_s < 60 then 60 else idle_s

/-- The `extended=` key handling of `read_config_or_defaults` followed by its
final minimum enforcement. -/
def config_extended (v : Int) : Int :=
  let extended_s := DEFAULT_EXTENDED_S
  let n := parse_pos_int v
  let extended_s := if n ≥ 60 then n else extended_s
  if extended_s < 60 then 60 else extended_s

/-- A Registry entry as `add_dev` stores it in `RT.devices`. -/
structure DevEntry where
  fd : Int
  path : String
deriving DecidableEq, Repr

/-- `add_dev(path)`: nothing happens when `open` fails (`open_fd = none`) or
when the epoll registration fails; otherwise the new device is appended with
`push_back` — there is no duplicate-path check. -/
def add_dev (devs : List DevEntry) (p : String) (open_fd : Option Int)
    (epoll_ok : Bool) : List DevEntry :=
  match open_fd with
  | none => devs
  | some fd => if epoll_ok then devs ++ [{ fd := fd, path := p }] else devs

theorem on_activity_fst (rt : Runtime) (now : Int) :
    (on_activity rt now).1 =
      if now - rt.last_pulse_ms < DEBOUNCE_MS then rt
      else { rt with last_pulse_ms := now, last_activity_ms := now,
                     state := State.ACTIVE } := by
  obtain ⟨la, lp, st, is, es⟩ := rt
  unfold on_activity enter
  by_cases hdb : now - lp < DEBOUNCE_MS
  · simp [hdb]
  · by_cases hst : st = State.ACTIVE
    · simp [hdb, hst]
    · simp [hdb, hst, Ne.symm hst]

theorem reevaluate_fst (rt : Runtime) (now : Int) :
    (reevaluate rt now).1 =
      if rt.state = State.ACTIVE then
        (if effective_idle_ms rt now ≥ rt.idle_s * 1000
         then { rt with state := State.IDLE } else rt)
      else if rt.state = State.IDLE then
        (if effective_idle_ms rt now < rt.idle_s * 1000
         then { rt with state := State.ACTIVE }
         else if effective_idle_ms rt now ≥ rt.idle_s * 1000 + rt.extended_s * 1000
         then { rt with state := State.EXTENDED }
         else rt)
      else
        (if effective_idle_ms rt now < rt.idle_s * 1000
         then { rt with state := State.ACTIVE } else rt) := by
  obtain ⟨la, lp, st, is, es⟩ := rt
  unfold reevaluate enter
  rcases st with _ | _ | _ <;> simp <;> split_ifs <;> simp_all

theorem inv_activity {rt : Runtime} {t t' : Int} (ih : Inv rt t) (hle : t ≤ t') :
    Inv (on_activity rt t').1 t' := by
  obtain ⟨hi, he, hpa, hat, hna⟩ := ih
  rw [on_activity_fst]
  by_cases hdb : t' - rt.last_pulse_ms < DEBOUNCE_MS
  · rw [if_pos hdb]
    exact ⟨hi, he, hpa, le_trans hat hle, fun hne => le_trans (hna hne) (by omega)⟩
  · rw [if_neg hdb]
    exact ⟨hi, he, le_refl _, le_refl _, fun hne => absurd rfl hne⟩

theorem effective_of_elapsed {rt : Runtime} {t t' : Int}
    (hi : 60 ≤ rt.idle_s) (hle : t ≤ t')
    (h5 : rt.idle_s * 1000 ≤ t - rt.last_activity_ms) :
    effective_idle_ms rt t' = t' - rt.last_activity_ms ∧
    rt.idle_s * 1000 ≤ t' - rt.last_activity_ms := by
  unfold effective_idle_ms
  have hpos : t' - rt.last_activity_ms > 0 := by omega
  rw [if_pos hpos]
  omega

theorem inv_timer {rt : Runtime} {t t' : Int} (ih : Inv rt t) (hle : t ≤ t') :
    Inv (reevaluate rt t').1 t' := by
  obtain ⟨la, lp, st, is, es⟩ := rt
  obtain ⟨hi, he, hpa, hat, hna⟩ := ih
  simp only at hi he hpa hat hna
  rw [reevaluate_fst]
  unfold Inv effective_idle_ms
  rcases st with _ | _ | _ <;>
    simp_all <;> split_ifs <;> simp_all <;> omega

theorem reach_inv {rt : Runtime} {t : Int} (h : Reach rt t) : Inv rt t := by
  induction h with
  | init t0 idle ext h0 hi he =>
      exact ⟨hi, he, h0, le_refl _, fun hne => absurd rfl hne⟩
  | activity t' h hle ih => exact inv_activity ih hle
  | timer t' h hle ih => exact inv_timer ih hle

theorem schedule_timer_ne_nil (rt : Runtime) (now : Int) :
    schedule_timer rt now ≠ [] := by
  unfold schedule_timer
  split_ifs <;> simp

/-- C5: requesting a transition to the state the machine is already in is a
no-op: `enter` returns the runtime unchanged and produces no state-file
write, no hook dispatch, and no other effect. -/
theorem C5_enter_same_state_noop (rt : Runtime) : enter rt rt.state = (rt, []) := by
  unfold enter
  rw [if_pos rfl]

/-- C2: an activity pulse leaves everything untouched (runtime returned
intact, no state transition, no clock-mark update, no timer reschedule, no
state-file write, no hook dispatch) exactly when less than the 3-second
debounce interval has elapsed since the previous accepted pulse; hence a
pulse is accepted (does anything at all) only when at least 3 s have
elapsed. -/
theorem C2_debounce_boundary (rt : Runtime) (now : Int) :
    on_activity rt now = (rt, []) ↔ now - rt.last_pulse_ms < DEBOUNCE_MS := by
  constructor
  · intro hEq
    by_contra hdb
    have h2 : (on_activity rt now).2 = [] := by rw [hEq]
    unfold on_activity at h2
    rw [if_neg hdb] at h2
    simp only [List.append_eq_nil] at h2
    exact schedule_timer_ne_nil _ now h2.2
  · intro hdb
    unfold on_activity
    rw [if_pos hdb]

/-- C1: any transition back to ACTIVE is driven by activity, not by timer
re-evaluation: from every reachable runtime, `reevaluate` yields ACTIVE only
if the state already was ACTIVE, while an accepted activity pulse
(`on_activity` past the debounce window) puts the machine in ACTIVE
immediately. -/
theorem C1_reactivation_only_by_pulse (rt : Runtime) (t t' : Int)
    (h : Reach rt t) (hle : t ≤ t') :
    ((reevaluate rt t').1.state = State.ACTIVE → rt.state = State.ACTIVE) ∧
    (DEBOUNCE_MS ≤ t' - rt.last_pulse_ms →
      (on_activity rt t').1.state = State.ACTIVE) := by
  obtain ⟨hi, he, hpa, hat, hna⟩ := reach_inv h
  constructor
  · intro hact
    by_contra hne
    have h5 := hna hne
    obtain ⟨heq, hge⟩ := effective_of_elapsed hi hle h5
    rw [reevaluate_fst] at hact
    rcases hst : rt.state with _ | _ | _
    · exact hne hst
    · rw [heq] at hact
      simp only [hst, reduceCtorEq, reduceIte] at hact
      rw [if_neg (by omega)] at hact
      by_cases hc : t' - rt.last_activity_ms ≥ rt.idle_s * 1000 + rt.extended_s * 1000
      · rw [if_pos hc] at hact
        simp at hact
      · rw [if_neg hc] at hact
        exact hne hact
    · rw [heq] at hact
      simp only [hst, reduceCtorEq, reduceIte] at hact
      rw [if_neg (by omega)] at hact
      exact hne hact
  · intro hdb
    rw [on_activity_fst, if_neg (by omega)]

/-- Witness for C1 at the concrete initial runtime. -/
theorem C1_reactivation_only_by_pulse_witness :
    ((reevaluate (init_rt 0 60 60) 0).1.state = State.ACTIVE →
       (init_rt 0 60 60).state = State.ACTIVE) ∧
    (DEBOUNCE_MS ≤ (0:Int) - (init_rt 0 60 60).last_pulse_ms →
       (on_activity (init_rt 0 60 60) 0).1.state = State.ACTIVE) :=
  C1_reactivation_only_by_pulse (init_rt 0 60 60) 0 0
    (Reach.init 0 60 60 (by decide) (by decide) (by decide)) (le_refl 0)

/-- C9: in every reachable runtime whose state is not ACTIVE, the debounce
check necessarily passes (at least a full idle timeout ≥ 60 s > 3 s has
already elapsed since the last accepted pulse), so no qualifying event is
lost to debounce while the system is idle. -/
theorem C9_idle_states_accept_pulse (rt : Runtime) (t t' : Int)
    (h : Reach rt t) (hle : t ≤ t') (hne : rt.state ≠ State.ACTIVE) :
    DEBOUNCE_MS ≤ t' - rt.last_pulse_ms := by
  obtain ⟨hi, he, hpa, hat, hna⟩ := reach_inv h
  have h5 := hna hne
  unfold DEBOUNCE_MS
  omega

/-- Witness for C9 at a concrete reachable IDLE runtime: start at time 0 with
both timeouts 60 s, let the timer fire at 60 s (entering IDLE), and observe a
qualifying event 1 ms later. -/
theorem C9_idle_states_accept_pulse_witness :
    DEBOUNCE_MS ≤ (60001:Int) -
      (reevaluate (init_rt 0 60 60) 60000).1.last_pulse_ms :=
  C9_idle_states_accept_pulse (reevaluate (init_rt 0 60 60) 60000).1 60000 60001
    (Reach.timer 60000 (Reach.init 0 60 60 (by decide) (by decide) (by decide))
      (by decide))
    (by decide) (by decide)

theorem handle_event_pulsed (dv : ClassDev) (e : Ev) :
    handle_event dv true e = (dv, true) := rfl

theorem pulse_count_pulsed (dv : ClassDev) (evs : List Ev) :
    pulse_count dv true evs = 0 := by
  induction evs generalizing dv with
  | nil => rfl
  | cons e rest ih =>
    unfold pulse_count
    simp [handle_event_pulsed, ih]

/-- C7: for every read batch of input events from one device, at most one
activity pulse is issued; every event of the batch is still consumed, but
after the first qualifying event no further `on_activity()` call is made. -/
theorem C7_at_most_one_pulse_per_batch (dv : ClassDev) (evs : List Ev) :
    pulse_count dv false evs ≤ 1 := by
  induction evs generalizing dv with
  | nil => simp [pulse_count]
  | cons e rest ih =>
    unfold pulse_count
    rcases hp : (handle_event dv false e).2 with _ | _
    · simpa [hp] using ih (handle_event dv false e).1
    · simp [hp, pulse_count_pulsed]

/-- C3 counterexample: on the concrete device `cdev` (axis 0 seen with last
value 0 and dead-zone width 64), an absolute event with value 10 has delta 10
below the dead-zone, and the per-axis last-seen value stays 0 instead of
being updated to the event's raw value 10 — refuting the claim that the
last-seen value updates on every observation. -/
theorem C3_counterexample :
    (handle_event cdev false (Ev.abs 0 10)).1.abs_last 0 = 0 ∧
    ¬((handle_event cdev false (Ev.abs 0 10)).1.abs_last 0 = 10) := by
  constructor <;> decide

/-- C3 amended: for an already-seen axis, the per-axis last-seen value is
updated to the event's raw value exactly when the event qualifies as
activity; a non-qualifying observation (for example a sub-dead-zone delta)
leaves the device unchanged, and an event arriving after a pulse has already
fired in the same read batch is skipped entirely. -/
theorem handle_event_abs_seen (dv : ClassDev) (code : Nat) (val : Int)
    (hseen : dv.abs_seen code = true) :
    handle_event dv false (Ev.abs code val) =
      (if abs_qualifies dv code val then
        ({ dv with abs_last := Function.update dv.abs_last code val }, true)
       else (dv, false)) := by
  unfold handle_event abs_qualifies
  by_cases hhat : is_hat_abs code = true
  · by_cases hz : (val - dv.abs_last code).natAbs = 0 <;> simp [hseen, hhat, hz]
  · by_cases hc : (if dv.abs_dz code ≤ 0 then AXIS_DZ_MIN else dv.abs_dz code) ≤
        |val - dv.abs_last code| <;>
      simp [hseen, hhat, hc]

theorem C3_abs_last_updates_only_on_qualify (dv : ClassDev) (code : Nat) (val : Int)
    (hseen : dv.abs_seen code = true) :
    handle_event dv true (Ev.abs code val) = (dv, true) ∧
    (handle_event dv false (Ev.abs code val)).1.abs_last code =
      (if abs_qualifies dv code val then val else dv.abs_last code) ∧
    (abs_qualifies dv code val = false →
      (handle_event dv false (Ev.abs code val)).1 = dv) := by
  refine ⟨rfl, ?_, ?_⟩
  · rw [handle_event_abs_seen dv code val hseen]
    by_cases hq : abs_qualifies dv code val <;> simp [hq, Function.update_same]
  · intro hq
    rw [handle_event_abs_seen dv code val hseen]
    simp [hq]

/-- Witness for the amended C3 on the concrete device `cdev` at axis 0 with
raw value 100 (delta 100, at or above the width 64, so it qualifies). -/
theorem C3_abs_last_updates_only_on_qualify_witness :
    handle_event cdev true (Ev.abs 0 100) = (cdev, true) ∧
    (handle_event cdev false (Ev.abs 0 100)).1.abs_last 0 =
      (if abs_qualifies cdev 0 100 then (100:Int) else cdev.abs_last 0) ∧
    (abs_qualifies cdev 0 100 = false →
      (handle_event cdev false (Ev.abs 0 100)).1 = cdev) :=
  C3_abs_last_updates_only_on_qualify cdev 0 100 rfl

/-- C6: for a non-direction-pad axis with a positive stored dead-zone width:
the very first observation records the raw value as baseline (seen flag set,
last-seen set to the value) and produces no pulse; every later observation
pulses exactly when the absolute delta from the last observed value is at
least the dead-zone width (strictly below the width produces no pulse). -/
theorem C6_dead_zone_rule (dv : ClassDev) (code : Nat) (val : Int)
    (hhat : is_hat_abs code = false) (hdz : 0 < dv.abs_dz code) :
    (dv.abs_seen code = false →
       handle_event dv false (Ev.abs code val) =
         ({ dv with abs_last := Function.update dv.abs_last code val,
                    abs_seen := Function.update dv.abs_seen code true }, false)) ∧
    (dv.abs_seen code = true →
       ((handle_event dv false (Ev.abs code val)).2 = true ↔
         dv.abs_dz code ≤ ((val - dv.abs_last code).natAbs : Int))) := by
  have hdz' : ¬ dv.abs_dz code ≤ 0 := by omega
  constructor
  · intro hseen
    simp [handle_event, hseen]
  · intro hseen
    by_cases hc : dv.abs_dz code ≤ |val - dv.abs_last code| <;>
      simp [handle_event, hseen, hhat, hdz', hc]

/-- Witness for C6 on the concrete device `cdev` at axis 0 with raw value 100. -/
theorem C6_dead_zone_rule_witness :
    (cdev.abs_seen 0 = false →
       handle_event cdev false (Ev.abs 0 100) =
         ({ cdev with abs_last := Function.update cdev.abs_last 0 100,
                      abs_seen := Function.update cdev.abs_seen 0 true }, false)) ∧
    (cdev.abs_seen 0 = true →
       ((handle_event cdev false (Ev.abs 0 100)).2 = true ↔
         cdev.abs_dz 0 ≤ ((100 - cdev.abs_last 0).natAbs : Int))) :=
  C6_dead_zone_rule cdev 0 100 rfl (by decide)

/-- C8: per-axis calibration at device (re)discovery: a hat (direction-pad)
axis gets dead-zone 0; any other probed axis with positive reported span gets
`max (round (span * fraction)) 64`; an axis whose reported span is zero or
negative gets the fixed fallback width 128 instead of a span-derived value. -/
theorem C8_calibration (pct : ℚ) (probe : Nat → Option AbsInfo) (code : Nat)
    (ai : AbsInfo) (hcode : code ≤ ABS_MAX) (hprobe : probe code = some ai) :
    init_abs_dz pct probe code =
      if is_hat_abs code then 0
      else if 0 < ai.maximum - ai.minimum then
        max (round (((ai.maximum - ai.minimum : Int) : ℚ) * pct)) AXIS_DZ_MIN
      else AXIS_DZ_BADSPAN := by
  unfold init_abs_dz
  rw [if_pos hcode, hprobe]
  by_cases hhat : is_hat_abs code = true
  · simp [hhat]
  · simp only [hhat, Bool.false_eq_true, if_false]
    by_cases hspan : ai.maximum - ai.minimum > 0
    · rw [if_pos hspan, if_pos hspan]
      unfold AXIS_DZ_MIN
      split_ifs <;> omega
    · rw [if_neg hspan, if_neg (by omega)]

/-- Witness for C8: a probe reporting min 0, max 255 on (non-hat) axis 0 with
the default fraction 0.15. -/
theorem C8_calibration_witness :
    init_abs_dz (15/100 : ℚ) (fun _ => some ⟨0, 255⟩) 0 =
      if is_hat_abs 0 then 0
      else if 0 < ((255:Int) - 0) then
        max (round ((((255:Int) - 0 : Int) : ℚ) * (15/100 : ℚ))) AXIS_DZ_MIN
      else AXIS_DZ_BADSPAN :=
  C8_calibration (15/100 : ℚ) (fun _ => some ⟨0, 255⟩) 0 ⟨0, 255⟩ (by decide) rfl

/-- C4 counterexample: a configured idle timeout of 30 s yields the default
900 s, not the claimed clamp to 60 s; a configured idle timeout of 86400 s
(24 h) yields 900 s, not the claimed clamp to 43200 s (12 h); the extended
timeout behaves the same with its default 3600 s. -/
theorem C4_counterexample :
    config_idle 30 = 900 ∧ config_idle 30 ≠ 60 ∧
    config_idle 86400 = 900 ∧ config_idle 86400 ≠ 43200 ∧
    config_extended 30 = 3600 ∧ config_extended 30 ≠ 60 ∧
    config_extended 86400 = 3600 ∧ config_extended 86400 ≠ 43200 := by
  refine ⟨?_, ?_, ?_, ?_, ?_, ?_, ?_, ?_⟩ <;> decide

/-- C4 amended: a configured timeout value inside [60 s, 12 h] is used
as-is; any value outside that range (below 60 s, negative, or above 43200 s)
is rejected and the compiled-in default applies instead — 900 s for the idle
timeout and 3600 s for the extended timeout — rather than being clamped to
the nearer bound. -/
theorem C4_config_range (v : Int) :
    config_idle v = (if 60 ≤ v ∧ v ≤ 43200 then v else DEFAULT_IDLE_S) ∧
    config_extended v = (if 60 ≤ v ∧ v ≤ 43200 then v else DEFAULT_EXTENDED_S) := by
  simp only [config_idle, config_extended, parse_pos_int, DEFAULT_IDLE_S,
    DEFAULT_EXTENDED_S]
  constructor <;> split_ifs <;> omega

/-- C10: Registry add is not idempotent: when some tracked device already has
the given path, a further `add_dev` of that path that opens successfully is a
plain `push_back` of a fresh entry, leaving at least two entries with the
same path — there is no duplicate-path check. -/
theorem C10_add_dev_appends_duplicate (devs : List DevEntry) (p : String) (fd : Int)
    (h : ∃ d ∈ devs, d.path = p) :
    add_dev devs p (some fd) true = devs ++ [{ fd := fd, path := p }] ∧
    2 ≤ (List.filter (fun d => d.path == p) (add_dev devs p (some fd) true)).length := by
  refine ⟨rfl, ?_⟩
  obtain ⟨d, hd, hp⟩ := h
  have h1 : d ∈ List.filter (fun d => d.path == p) devs :=
    List.mem_filter.mpr ⟨hd, by simp [hp]⟩
  have h2 : 0 < (List.filter (fun d => d.path == p) devs).length :=
    List.length_pos_of_mem h1
  have h3 : add_dev devs p (some fd) true = devs ++ [{ fd := fd, path := p }] := rfl
  rw [h3, List.filter_append, List.length_append]
  simp only [List.filter, beq_self_eq_true, List.length_cons, List.length_nil]
  omega

/-- Witness for C10: the registry already tracks `/dev/input/event0` on fd 3,
and a hot-plug add of the same path succeeds on fd 5. -/
theorem C10_add_dev_appends_duplicate_witness :
    add_dev [{ fd := 3, path := "/dev/input/event0" }] "/dev/input/event0" (some 5) true =
      [{ fd := 3, path := "/dev/input/event0" }] ++ [{ fd := 5, path := "/dev/input/event0" }] ∧
    2 ≤ (List.filter (fun d => d.path == "/dev/input/event0")
          (add_dev [{ fd := 3, path := "/dev/input/event0" }] "/dev/input/event0"
            (some 5) true)).length :=
  C10_add_dev_appends_duplicate [{ fd := 3, path := "/dev/input/event0" }]
    "/dev/input/event0" 5 ⟨{ fd := 3, path := "/dev/input/event0" }, by simp, rfl⟩
